import Mathlib

/-!
Shallow embedding of the wazper Express routers
(src/unnamed/part_000 — message/template/contact routes, and
src/routes/accounts.js — account lifecycle routes).

Each HTTP handler becomes a pure function from a request record and an
environment (oracles for the database contents and for the external
WhatsApp service) to a `HandlerOut`: the HTTP response together with
traces of the database writes issued, the WhatsApp send attempts made,
the temp files unlinked, and the account-service calls performed.
JavaScript truthiness of optional string fields is modelled by `truthy`.
-/

namespace Wazper

/-- A row of the `accounts` table (the columns the routes read). -/
structure Account where
  id : String
  name : String
  phone : Option String
  status : String
  deriving Repr, DecidableEq

/-- A stored (or incoming) multipart media file: what multer exposes as
`req.file` (`path`, `size`, `mimetype`). -/
structure MediaFile where
  path : String
  size : Nat
  mimetype : String
  deriving Repr, DecidableEq

/-- A database write issued through `database.query` by one of the modelled
handlers (parameterized INSERT/UPDATE statements). -/
inductive DbWrite where
  | insertActivityLog (accountId action description : String)
  | insertMessage (fromAccountId toNumber messageText : String)
      (mediaPath : Option String) (status messageType : String)
  | insertContact (name phone : String) (groupName : Option String)
  | updateContact (id name phone : String) (groupName : Option String) (isActive : Bool)
  | insertAccount (name : String) (phone : Option String) (status : String)
  | updateAccountFreshStart (id : String)
  deriving Repr, DecidableEq

/-- One entry of the `results` array returned by the bulk endpoints. -/
structure SendResult where
  toNumber : String
  success : Bool
  messageId : Option String
  error : Option String
  deriving Repr, DecidableEq

/-- The JSON bodies the modelled handlers can respond with. -/
inductive Body where
  | err (msg : String)
  | errWithNumbers (msg : String) (invalidNumbers : List String)
  | sendSuccess (msg : String) (result : Option String)
  | bulkResult (msg : String) (successful failed : Nat) (results : List SendResult)
  | contactCreated (id name phone : String) (groupName : Option String) (msg : String)
  | bulkImport (msg : String) (successCount errorCount : Nat) (errors : List String)
  | accountCreated (id name : String) (phone : Option String)
      (status : String) (qrCode : Option String) (msg : String)
  | message (msg : String)
  | messageWithNote (msg note : String)
  | errWithMessage (msg errMsg : String)
  deriving Repr, DecidableEq

/-- An HTTP response: status code and JSON body. -/
structure Response where
  status : Nat
  body : Body
  deriving Repr, DecidableEq

/-- A call into the WhatsApp service to send a message. -/
inductive SendAttempt where
  | text (fromAccountId toNumber msg : String)
  | media (fromAccountId toNumber : String) (caption : Option String) (path : String)
  deriving Repr, DecidableEq

/-- A call into the WhatsApp service's account-lifecycle API. -/
inductive SvcCall where
  | connect (id : String)
  | disconnect (id : String)
  | forceReconnect (id : String)
  deriving Repr, DecidableEq

/-- Everything a handler run produces: the response and the effect traces,
in program order. -/
structure HandlerOut where
  resp : Response
  writes : List DbWrite := []
  sends : List SendAttempt := []
  unlinks : List String := []
  svcCalls : List SvcCall := []
  deriving Repr, DecidableEq

/-- The environment: database contents and external-service behaviour.
`sendText`/`sendMedia` return the optional message id (`result.key?.id`)
or the thrown error's message. -/
structure Env where
  accounts : List Account
  nextId : String
  contactExists : String → Bool
  sendText : String → String → String → Except String (Option String)
  sendMedia : String → String → Option String → String → Except String (Option String)
  svcConnect : String → Except String Unit
  svcDisconnect : String → Except String Unit
  svcForceReconnect : String → Except String Unit

/-- JS truthiness for an optional string field of `req.body`:
absent and the empty string are falsy. -/
def truthy : Option String → Bool
  | none => false
  | some s => !s.isEmpty

/-- JS whitespace stripped by `String.prototype.trim` (the characters that
occur in this code base's inputs). -/
def isWs (c : Char) : Bool :=
  c = ' ' || c = '\t' || c = '\n' || c = '\r'

/-- JS `s.trim()`. -/
def jsTrim (s : String) : String :=
  String.mk (((s.data.dropWhile isWs).reverse.dropWhile isWs).reverse)

/-- JS `message?.trim()` collapsed to a string: `none` (undefined) behaves
like the empty string for the truthiness checks the handlers do. -/
def trimOpt (m : Option String) : String :=
  jsTrim (m.getD "")

/-- The phone-number check `/^[0-9]{10,15}$/.test(s)`. -/
def validPhone (s : String) : Bool :=
  decide (10 ≤ s.length) && decide (s.length ≤ 15) && s.data.all (·.isDigit)

/-- JS `phone.replace(/\D/g, '')`: keep only decimal digits. -/
def cleanPhone (s : String) : String :=
  String.mk (s.data.filter (·.isDigit))

/-- `SELECT * FROM accounts WHERE id = ? AND status = "connected"` is
non-empty. -/
def accountConnected (t : List Account) (id : String) : Bool :=
  t.any (fun a => a.id == id && a.status == "connected")

/-- `SELECT * FROM accounts WHERE id = ?` is non-empty. -/
def accountExists (t : List Account) (id : String) : Bool :=
  t.any (fun a => a.id == id)

/-- `SELECT id FROM accounts WHERE phone = ?` is non-empty. -/
def phoneTaken (t : List Account) (phone : String) : Bool :=
  t.any (fun a => a.phone == some phone)

/-! ## POST /send (part_000 lines 33-87) -/

/-- Request body of POST /send. -/
structure SendReq where
  fromAccountId : Option String
  toNumber : Option String
  message : Option String
  scheduledAt : Option String
  deriving Repr, DecidableEq

/-- POST /send: validate fields, require a connected account, send the text
message, log the activity; a send failure is rethrown and answered 500. -/
def sendHandler (env : Env) (r : SendReq) : HandlerOut :=
  if !truthy r.fromAccountId || !truthy r.toNumber || !truthy r.message then
    { resp := ⟨400, .err "fromAccountId, toNumber, and message are required"⟩ }
  else
    let fromId := r.fromAccountId.getD ""
    let toNum := r.toNumber.getD ""
    let msg := r.message.getD ""
    if !accountConnected env.accounts fromId then
      { resp := ⟨400, .err "Account not found or not connected"⟩ }
    else
      match env.sendText fromId toNum msg with
      | .ok mid =>
          { resp := ⟨200, .sendSuccess "Message sent successfully" mid⟩
            writes := [.insertActivityLog fromId "message_sent" ("Message sent to " ++ toNum)]
            sends := [.text fromId toNum msg] }
      | .error e =>
          { resp := ⟨500, .err ("Failed to send message: " ++ e)⟩
            sends := [.text fromId toNum msg] }

/-! ## POST /send-media (part_000 lines 9-30, 90-228) -/

/-- The MIME types the multer `fileFilter` accepts. -/
def allowedMimes : List String :=
  ["image/jpeg", "image/png", "image/gif", "image/webp",
   "video/mp4", "video/avi", "video/mov", "video/wmv",
   "audio/mp3", "audio/wav", "audio/aac", "audio/ogg",
   "application/pdf", "application/msword",
   "application/vnd.openxmlformats-officedocument.wordprocessingml.document"]

/-- The multer size limit: 16 MB. -/
def fileSizeLimit : Nat := 16 * 1024 * 1024

/-- Outcome of the `upload.single('media')` stage combined with the custom
error middleware of POST /send-media: either the middleware already
responded, or the request proceeds with the stored file (if any). -/
inductive MulterOutcome where
  | rejected (resp : Response)
  | passed (file : Option MediaFile)
  deriving Repr, DecidableEq

/-- `upload.single('media')` with the POST /send-media error middleware:
the `fileFilter` rejects unsupported MIME types, the size limit yields
`LIMIT_FILE_SIZE`; both are turned into 400 responses, and no temp file
survives a rejection. -/
def multerSingle (f : Option MediaFile) : MulterOutcome :=
  match f with
  | none => .passed none
  | some u =>
      if !allowedMimes.contains u.mimetype then
        .rejected ⟨400, .err "File type not supported. Please use images, videos, audio, or documents."⟩
      else if fileSizeLimit < u.size then
        .rejected ⟨400, .err "File too large. Maximum size is 16MB."⟩
      else
        .passed (some u)

/-- Request body of POST /send-media (the file as multer stored it). -/
structure SendMediaReq where
  fromAccountId : Option String
  toNumber : Option String
  message : Option String
  scheduledAt : Option String
  file : Option MediaFile
  deriving Repr, DecidableEq

/-- The POST /send-media async handler (after the multer stage): validation,
connected-account check, the 501 branch for `scheduledAt`, then the send
with activity logging and temp-file cleanup on the success and error
paths. -/
def sendMediaCore (env : Env) (r : SendMediaReq) : HandlerOut :=
  if !truthy r.fromAccountId || !truthy r.toNumber then
    { resp := ⟨400, .err "From account and to number are required"⟩ }
  else if (trimOpt r.message).isEmpty && r.file.isNone then
    { resp := ⟨400, .err "Either message or media file is required"⟩ }
  else if !validPhone (r.toNumber.getD "") then
    { resp := ⟨400, .err "Invalid phone number format"⟩ }
  else if !accountConnected env.accounts (r.fromAccountId.getD "") then
    { resp := ⟨400, .err "Account not found or not connected"⟩ }
  else if truthy r.scheduledAt then
    { resp := ⟨501, .err "Scheduled media messages not implemented yet"⟩ }
  else
    let fromId := r.fromAccountId.getD ""
    let toNum := r.toNumber.getD ""
    let outcome :=
      match r.file with
      | some f =>
          if !(trimOpt r.message).isEmpty then
            (env.sendMedia fromId toNum (some (trimOpt r.message)) f.path,
             SendAttempt.media fromId toNum (some (trimOpt r.message)) f.path)
          else
            (env.sendMedia fromId toNum none f.path,
             SendAttempt.media fromId toNum none f.path)
      | none =>
          (env.sendText fromId toNum (trimOpt r.message),
           SendAttempt.text fromId toNum (trimOpt r.message))
    match outcome.1 with
    | .ok mid =>
        { resp := ⟨200, .sendSuccess "Media message sent successfully" mid⟩
          writes := [.insertActivityLog fromId "media_message_sent"
                      ("Media message sent to " ++ toNum)]
          sends := [outcome.2]
          unlinks := match r.file with | some f => [f.path] | none => [] }
    | .error e =>
        -- the inner catch unlinks, rethrows, and the outer catch unlinks again
        { resp :=
            if e == "File type not supported" then
              ⟨400, .err "File type not supported. Please use images, videos, audio, or documents."⟩
            else
              ⟨500, .err ("Failed to send media message: " ++ e)⟩
          sends := [outcome.2]
          unlinks := match r.file with | some f => [f.path, f.path] | none => [] }

/-- POST /send-media end to end: the multer stage, then the handler. -/
def sendMediaHandler (env : Env) (r : SendMediaReq) : HandlerOut :=
  match multerSingle r.file with
  | .rejected resp => { resp := resp }
  | .passed f => sendMediaCore env { r with file := f }

/-! ## POST /send-bulk (part_000 lines 497-571) -/

/-- Request body of POST /send-bulk. `recipients := none` models a missing
field or a value that is not an array. -/
structure SendBulkReq where
  fromAccountId : Option String
  recipients : Option (List String)
  message : Option String
  scheduledAt : Option String
  deriving Repr, DecidableEq

/-- The per-recipient loop of POST /send-bulk: send, log a `messages` row on
success, collect one result per recipient; a per-item failure is caught
and recorded. -/
def bulkSendLoop (env : Env) (fromId msg : String) :
    List String → List SendResult × List DbWrite × List SendAttempt
  | [] => ([], [], [])
  | toNum :: rest =>
      let tail := bulkSendLoop env fromId msg rest
      match env.sendText fromId toNum msg with
      | .ok mid =>
          (⟨toNum, true, mid, none⟩ :: tail.1,
           .insertMessage fromId toNum msg none "sent" "text" :: tail.2.1,
           .text fromId toNum msg :: tail.2.2)
      | .error e =>
          (⟨toNum, false, none, some e⟩ :: tail.1,
           tail.2.1,
           .text fromId toNum msg :: tail.2.2)

/-- POST /send-bulk: validate the request, the message, every phone number
and the 100-recipient cap, then run the sequential send loop and report
the successful/failed counts with the result list. -/
def sendBulkHandler (env : Env) (r : SendBulkReq) : HandlerOut :=
  match r.recipients with
  | none => { resp := ⟨400, .err "Invalid request data"⟩ }
  | some recipients =>
    if !truthy r.fromAccountId || recipients.isEmpty then
      { resp := ⟨400, .err "Invalid request data"⟩ }
    else if !truthy r.message || (trimOpt r.message).isEmpty then
      { resp := ⟨400, .err "Message is required"⟩ }
    else
      let invalidNumbers := recipients.filter (fun n => !validPhone n)
      if !invalidNumbers.isEmpty then
        { resp := ⟨400, .errWithNumbers "Invalid phone numbers" invalidNumbers⟩ }
      else if 100 < recipients.length then
        { resp := ⟨400, .err "Maximum 100 recipients per bulk send"⟩ }
      else
        let fromId := r.fromAccountId.getD ""
        let msg := r.message.getD ""
        let run := bulkSendLoop env fromId msg recipients
        let successful := (run.1.filter (·.success)).length
        let failed := (run.1.filter (fun x => !x.success)).length
        { resp := ⟨200, .bulkResult
            ("Bulk send completed: " ++ toString successful ++ " successful, "
              ++ toString failed ++ " failed")
            successful failed run.1⟩
          writes := run.2.1
          sends := run.2.2 }

/-! ## POST /send-bulk-media (part_000 lines 573-687) -/

/-- The `recipients` field of POST /send-bulk-media before parsing:
a string that `JSON.parse` rejects, a value that is not an array
(including a string parsing to a non-array), or an array. -/
inductive RecipientsVal where
  | parseFailure
  | nonArray
  | list (l : List String)
  deriving Repr, DecidableEq

/-- The per-recipient loop of POST /send-bulk-media: media send when a file
was uploaded, text send otherwise, one `messages` row per success, one
result per recipient. -/
def bulkMediaLoop (env : Env) (fromId msg : String) (file : Option MediaFile) :
    List String → List SendResult × List DbWrite × List SendAttempt
  | [] => ([], [], [])
  | toNum :: rest =>
      let tail := bulkMediaLoop env fromId msg file rest
      match file with
      | some f =>
          match env.sendMedia fromId toNum (some msg) f.path with
          | .ok mid =>
              (⟨toNum, true, mid, none⟩ :: tail.1,
               .insertMessage fromId toNum msg (some f.path) "sent" "media" :: tail.2.1,
               .media fromId toNum (some msg) f.path :: tail.2.2)
          | .error e =>
              (⟨toNum, false, none, some e⟩ :: tail.1,
               tail.2.1,
               .media fromId toNum (some msg) f.path :: tail.2.2)
      | none =>
          match env.sendText fromId toNum msg with
          | .ok mid =>
              (⟨toNum, true, mid, none⟩ :: tail.1,
               .insertMessage fromId toNum msg none "sent" "text" :: tail.2.1,
               .text fromId toNum msg :: tail.2.2)
          | .error e =>
              (⟨toNum, false, none, some e⟩ :: tail.1,
               tail.2.1,
               .text fromId toNum msg :: tail.2.2)

/-- Request body of POST /send-bulk-media (the file as multer stored it). -/
structure SendBulkMediaReq where
  fromAccountId : Option String
  recipients : Option RecipientsVal
  message : Option String
  scheduledAt : Option String
  file : Option MediaFile
  deriving Repr, DecidableEq

/-- POST /send-bulk-media: parse and validate the recipient list (50-item
cap), require a message or a media file, run the sequential send loop,
then remove the uploaded temp file and report the counts. -/
def sendBulkMediaHandler (env : Env) (r : SendBulkMediaReq) : HandlerOut :=
  match r.recipients with
  | none => { resp := ⟨400, .err "Missing required fields"⟩ }
  | some recipientsVal =>
    if !truthy r.fromAccountId then
      { resp := ⟨400, .err "Missing required fields"⟩ }
    else
    match recipientsVal with
    | .parseFailure => { resp := ⟨400, .err "Invalid recipients format"⟩ }
    | .nonArray => { resp := ⟨400, .err "Recipients must be a non-empty array"⟩ }
    | .list recipientList =>
      if recipientList.isEmpty then
        { resp := ⟨400, .err "Recipients must be a non-empty array"⟩ }
      else
        let invalidNumbers := recipientList.filter (fun n => !validPhone n)
        if !invalidNumbers.isEmpty then
          { resp := ⟨400, .errWithNumbers "Invalid phone numbers" invalidNumbers⟩ }
        else if 50 < recipientList.length then
          { resp := ⟨400, .err "Maximum 50 recipients per bulk media send"⟩ }
        else if r.file.isNone && (!truthy r.message || (trimOpt r.message).isEmpty) then
          { resp := ⟨400, .err "Either message or media is required"⟩ }
        else
          let fromId := r.fromAccountId.getD ""
          -- `message || ''` for the media send and the messages row,
          -- the raw `message` for the text send
          let msgOrEmpty := r.message.getD ""
          let run := bulkMediaLoop env fromId msgOrEmpty r.file recipientList
          let successful := (run.1.filter (·.success)).length
          let failed := (run.1.filter (fun x => !x.success)).length
          { resp := ⟨200, .bulkResult
              ("Bulk media send completed: " ++ toString successful ++ " successful, "
                ++ toString failed ++ " failed")
              successful failed run.1⟩
            writes := run.2.1
            sends := run.2.2
            unlinks := match r.file with | some f => [f.path] | none => [] }

/-- The catch block of POST /send-bulk-media (part_000 lines 673-686): when
anything inside the try block throws, the uploaded temp file (if any) is
removed via fs.remove before the 500 response carrying the error's
message. -/
def sendBulkMediaCatch (file : Option MediaFile) (errMsg : String) : HandlerOut :=
  { resp := ⟨500, .err errMsg⟩
    unlinks := match file with | some f => [f.path] | none => [] }

/-! ## Contacts routes (part_000 lines 374-477) -/

/-- Request body of POST /contacts and one item of POST /contacts/bulk. -/
structure ContactReq where
  name : Option String
  phone : Option String
  groupName : Option String
  deriving Repr, DecidableEq

/-- POST /contacts: require name and phone, strip non-digits from the phone,
insert, and echo the cleaned phone in the 201 response. -/
def createContactHandler (env : Env) (r : ContactReq) : HandlerOut :=
  if !truthy r.name || !truthy r.phone then
    { resp := ⟨400, .err "Name and phone are required"⟩ }
  else
    let cp := cleanPhone (r.phone.getD "")
    let grp := if truthy r.groupName then r.groupName else none
    { resp := ⟨201, .contactCreated env.nextId (r.name.getD "") cp r.groupName
        "Contact added successfully"⟩
      writes := [.insertContact (r.name.getD "") cp grp] }

/-- `JSON.stringify(contact)` as used in the bulk-import error messages. -/
def stringifyContact (c : ContactReq) : String :=
  let field (k : String) : Option String → String
    | none => ""
    | some v => "\"" ++ k ++ "\":\"" ++ v ++ "\","
  "\x7b" ++ field "name" c.name ++ field "phone" c.phone
    ++ field "group_name" c.groupName ++ "\x7d"

/-- The loop of POST /contacts/bulk: items missing name or phone are counted
as errors, the rest are cleaned and inserted. -/
def bulkContactsLoop (contacts : List ContactReq) :
    Nat × Nat × List String × List DbWrite :=
  match contacts with
  | [] => (0, 0, [], [])
  | c :: rest =>
      let tail := bulkContactsLoop rest
      if !truthy c.name || !truthy c.phone then
        (tail.1, tail.2.1 + 1,
         ("Contact missing name or phone: " ++ stringifyContact c) :: tail.2.2.1,
         tail.2.2.2)
      else
        let cp := cleanPhone (c.phone.getD "")
        let grp := if truthy c.groupName then c.groupName else none
        (tail.1 + 1, tail.2.1, tail.2.2.1,
         .insertContact (c.name.getD "") cp grp :: tail.2.2.2)

/-- POST /contacts/bulk: require a non-empty array, run the import loop, and
report success/error counts with at most 10 error messages. -/
def bulkContactsHandler (r : Option (List ContactReq)) : HandlerOut :=
  match r with
  | none => { resp := ⟨400, .err "Contacts array is required"⟩ }
  | some [] => { resp := ⟨400, .err "Contacts array is required"⟩ }
  | some contacts =>
      let run := bulkContactsLoop contacts
      { resp := ⟨200, .bulkImport "Bulk import completed" run.1 run.2.1
          (run.2.2.1.take 10)⟩
        writes := run.2.2.2 }

/-- Request body of PUT /contacts/:id. -/
structure ContactUpdateReq where
  name : Option String
  phone : Option String
  groupName : Option String
  isActive : Option Bool
  deriving Repr, DecidableEq

/-- PUT /contacts/:id: require name and phone, strip non-digits from the
phone, update the row, 404 when no row was affected. -/
def updateContactHandler (env : Env) (id : String) (r : ContactUpdateReq) : HandlerOut :=
  if !truthy r.name || !truthy r.phone then
    { resp := ⟨400, .err "Name and phone are required"⟩ }
  else
    let cp := cleanPhone (r.phone.getD "")
    let grp := if truthy r.groupName then r.groupName else none
    let active := r.isActive.getD true
    if !env.contactExists id then
      { resp := ⟨404, .err "Contact not found"⟩
        writes := [.updateContact id (r.name.getD "") cp grp active] }
    else
      { resp := ⟨200, .message "Contact updated successfully"⟩
        writes := [.updateContact id (r.name.getD "") cp grp active] }

/-! ## Accounts routes (src/routes/accounts.js) -/

/-- Request body of POST /accounts. -/
structure AccountCreateReq where
  name : Option String
  phone : Option String
  deriving Repr, DecidableEq

/-- POST /accounts (accounts.js lines 43-95): require a name, reject a
duplicate phone, insert the account with status "disconnected", log the
creation, and answer 201 with the new account (qr_code null). -/
def createAccountHandler (env : Env) (r : AccountCreateReq) : HandlerOut :=
  if !truthy r.name then
    { resp := ⟨400, .err "Name is required"⟩ }
  else if truthy r.phone && phoneTaken env.accounts (r.phone.getD "") then
    { resp := ⟨400, .err "Phone number already exists"⟩ }
  else
    { resp := ⟨201, .accountCreated env.nextId (r.name.getD "") r.phone
        "disconnected" none "Account created successfully"⟩
      writes := [.insertAccount (r.name.getD "") r.phone "disconnected",
                 .insertActivityLog env.nextId "created" "Account created"] }

/-- POST /accounts/:id/connect (accounts.js lines 98-114): 404 when the
account does not exist, otherwise delegate to the service. -/
def connectHandler (env : Env) (id : String) : HandlerOut :=
  if !accountExists env.accounts id then
    { resp := ⟨404, .err "Account not found"⟩ }
  else
    match env.svcConnect id with
    | .ok _ =>
        { resp := ⟨200, .message "Connection initiated. Please scan QR code."⟩
          svcCalls := [.connect id] }
    | .error e =>
        { resp := ⟨500, .err e⟩
          svcCalls := [.connect id] }

/-- POST /accounts/:id/fresh-connect (accounts.js lines 117-163): 404 when
the account does not exist; otherwise disconnect, reset the row, log the
attempt, schedule a reconnect, and answer success. -/
def freshConnectHandler (env : Env) (id : String) : HandlerOut :=
  if !accountExists env.accounts id then
    { resp := ⟨404, .err "Account not found"⟩ }
  else
    match env.svcDisconnect id with
    | .ok _ =>
        { resp := ⟨200, .message "Fresh connection initiated. QR code will be generated shortly."⟩
          writes := [.updateAccountFreshStart id,
                     .insertActivityLog id "fresh_reconnect"
                       "Fresh reconnection initiated - starting new session"]
          svcCalls := [.disconnect id, .connect id] }
    | .error e =>
        { resp := ⟨500, .err e⟩
          svcCalls := [.disconnect id] }

/-- POST /accounts/:id/force-reconnect (accounts.js lines 166-195): 404 when
the account does not exist; otherwise log and delegate to the service. -/
def forceReconnectHandler (env : Env) (id : String) : HandlerOut :=
  if !accountExists env.accounts id then
    { resp := ⟨404, .err "Account not found"⟩ }
  else
    match env.svcForceReconnect id with
    | .ok _ =>
        { resp := ⟨200, .messageWithNote
            "Force reconnection initiated. New QR code will be generated."
            "All session files have been cleared for fresh authentication."⟩
          writes := [.insertActivityLog id "force_reconnect"
                      "Force reconnection initiated - generating new QR code"]
          svcCalls := [.forceReconnect id] }
    | .error e =>
        { resp := ⟨500, .errWithMessage "Force reconnection failed" e⟩
          writes := [.insertActivityLog id "force_reconnect"
                      "Force reconnection initiated - generating new QR code"]
          svcCalls := [.forceReconnect id] }

/-- POST /accounts/:id/disconnect (accounts.js lines 198-208): no existence
check at all — call the service and answer success unless it throws. -/
def disconnectHandler (env : Env) (id : String) : HandlerOut :=
  match env.svcDisconnect id with
  | .ok _ =>
      { resp := ⟨200, .message "Account disconnected successfully"⟩
        svcCalls := [.disconnect id] }
  | .error e =>
      { resp := ⟨500, .err e⟩
        svcCalls := [.disconnect id] }

/-! ## Helpers for the statements and proofs -/

/-- The `results` array of a bulk response body. -/
def bodyResults : Body → List SendResult
  | .bulkResult _ _ _ rs => rs
  | _ => []

/-- The `successful` count of a bulk response body. -/
def bodySuccessful : Body → Nat
  | .bulkResult _ s _ _ => s
  | _ => 0

/-- The `failed` count of a bulk response body. -/
def bodyFailed : Body → Nat
  | .bulkResult _ _ f _ => f
  | _ => 0

/-- A write into the `messages` table. -/
def isMessagesWrite : DbWrite → Bool
  | .insertMessage _ _ _ _ _ _ => true
  | _ => false

/-- The phone column carried by a write into the `contacts` table
(`none` for writes to other tables). -/
def contactWritePhone : DbWrite → Option String
  | .insertContact _ p _ => some p
  | .updateContact _ _ p _ _ => some p
  | _ => none

/-- A string of decimal digits only. -/
def allDigits (s : String) : Bool := s.data.all (·.isDigit)

/-- A concrete environment used to instantiate the theorems: one connected
account "1", text/media sends fail exactly for recipient "9999999999",
and the account service's disconnect fails exactly for id "bad". -/
def testEnv : Env where
  accounts := [⟨"1", "Main", some "628123456789", "connected"⟩]
  nextId := "7"
  contactExists := fun i => i == "5"
  sendText := fun _ toNum _ => if toNum == "9999999999" then .error "boom" else .ok (some "mid1")
  sendMedia := fun _ toNum _ _ => if toNum == "9999999999" then .error "mboom" else .ok (some "mid2")
  svcConnect := fun _ => .ok ()
  svcDisconnect := fun i => if i == "bad" then .error "svcfail" else .ok ()
  svcForceReconnect := fun _ => .ok ()

lemma length_filter_add_length_filter_not {α : Type} (p : α → Bool) (l : List α) :
    (l.filter p).length + (l.filter (fun x => !p x)).length = l.length := by
  induction l with
  | nil => rfl
  | cons a t ih =>
      by_cases h : p a = true <;> simp [List.filter_cons, h, ← ih] <;> omega

lemma bulkSendLoop_results_toNumber (env : Env) (fromId msg : String) (l : List String) :
    (bulkSendLoop env fromId msg l).1.map (·.toNumber) = l := by
  induction l with
  | nil => rfl
  | cons toNum rest ih =>
      simp only [bulkSendLoop]
      cases env.sendText fromId toNum msg <;> simpa using ih

lemma bulkSendLoop_sends (env : Env) (fromId msg : String) (l : List String) :
    (bulkSendLoop env fromId msg l).2.2
      = l.map (fun toNum => SendAttempt.text fromId toNum msg) := by
  induction l with
  | nil => rfl
  | cons toNum rest ih =>
      simp only [bulkSendLoop]
      cases env.sendText fromId toNum msg <;> simpa using ih

lemma bulkSendLoop_writes (env : Env) (fromId msg : String) (l : List String) :
    (bulkSendLoop env fromId msg l).2.1
      = ((bulkSendLoop env fromId msg l).1.filter (·.success)).map
          (fun res => DbWrite.insertMessage fromId res.toNumber msg none "sent" "text") := by
  induction l with
  | nil => rfl
  | cons toNum rest ih =>
      simp only [bulkSendLoop]
      cases env.sendText fromId toNum msg <;> simp [List.filter_cons, ih]

lemma bulkMediaLoop_results_toNumber (env : Env) (fromId msg : String)
    (file : Option MediaFile) (l : List String) :
    (bulkMediaLoop env fromId msg file l).1.map (·.toNumber) = l := by
  induction l with
  | nil => rfl
  | cons toNum rest ih =>
      cases file with
      | some f =>
          cases h : env.sendMedia fromId toNum (some msg) f.path <;>
            simp [bulkMediaLoop, h, ih]
      | none =>
          cases h : env.sendText fromId toNum msg <;>
            simp [bulkMediaLoop, h, ih]

lemma bulkMediaLoop_sends (env : Env) (fromId msg : String)
    (file : Option MediaFile) (l : List String) :
    (bulkMediaLoop env fromId msg file l).2.2
      = l.map (fun toNum =>
          match file with
          | some f => SendAttempt.media fromId toNum (some msg) f.path
          | none => SendAttempt.text fromId toNum msg) := by
  induction l with
  | nil => cases file <;> rfl
  | cons toNum rest ih =>
      cases file with
      | some f =>
          cases h : env.sendMedia fromId toNum (some msg) f.path <;>
            simp [bulkMediaLoop, h, ih]
      | none =>
          cases h : env.sendText fromId toNum msg <;>
            simp [bulkMediaLoop, h, ih]

/-! ## Claims -/

/-- C1: for every POST /send-bulk request that passes validation, delivery
is attempted to the recipients sequentially in list order (one send attempt
per recipient, a failure does not stop the remaining attempts), the
response's results array has exactly one entry per recipient in input
order, and the reported successful and failed counts sum to the number of
recipients; the same holds for POST /send-bulk-media over its parsed
recipient list. -/
theorem sendBulk_sequential_results_per_recipient :
    (∀ (env : Env) (r : SendBulkReq) (l : List String),
      r.recipients = some l →
      truthy r.fromAccountId = true →
      l ≠ [] →
      truthy r.message = true →
      (trimOpt r.message).isEmpty = false →
      (∀ n ∈ l, validPhone n = true) →
      l.length ≤ 100 →
      (sendBulkHandler env r).resp.status = 200 ∧
      (sendBulkHandler env r).sends
        = l.map (fun toNum =>
            SendAttempt.text (r.fromAccountId.getD "") toNum (r.message.getD "")) ∧
      (bodyResults (sendBulkHandler env r).resp.body).map (·.toNumber) = l ∧
      (bodyResults (sendBulkHandler env r).resp.body).length = l.length ∧
      bodySuccessful (sendBulkHandler env r).resp.body
        + bodyFailed (sendBulkHandler env r).resp.body = l.length)
    ∧
    (∀ (env : Env) (r : SendBulkMediaReq) (l : List String),
      r.recipients = some (.list l) →
      truthy r.fromAccountId = true →
      l ≠ [] →
      (∀ n ∈ l, validPhone n = true) →
      l.length ≤ 50 →
      (r.file.isNone && (!truthy r.message || (trimOpt r.message).isEmpty)) = false →
      (sendBulkMediaHandler env r).resp.status = 200 ∧
      (sendBulkMediaHandler env r).sends
        = l.map (fun toNum =>
            match r.file with
            | some f => SendAttempt.media (r.fromAccountId.getD "") toNum
                (some (r.message.getD "")) f.path
            | none => SendAttempt.text (r.fromAccountId.getD "") toNum (r.message.getD "")) ∧
      (bodyResults (sendBulkMediaHandler env r).resp.body).map (·.toNumber) = l ∧
      (bodyResults (sendBulkMediaHandler env r).resp.body).length = l.length ∧
      bodySuccessful (sendBulkMediaHandler env r).resp.body
        + bodyFailed (sendBulkMediaHandler env r).resp.body = l.length) := by
  constructor
  · intro env r l hrec hfrom hne hmsg htrim hvalid hlen
    have hinv : l.filter (fun n => !validPhone n) = [] := by
      rw [List.filter_eq_nil_iff]
      intro a ha
      simp [hvalid a ha]
    have hlt : ¬(100 < l.length) := by omega
    have hout : sendBulkHandler env r =
        { resp := ⟨200, .bulkResult
            ("Bulk send completed: "
              ++ toString ((bulkSendLoop env (r.fromAccountId.getD "") (r.message.getD "") l).1.filter (·.success)).length
              ++ " successful, "
              ++ toString ((bulkSendLoop env (r.fromAccountId.getD "") (r.message.getD "") l).1.filter (fun x => !x.success)).length
              ++ " failed")
            ((bulkSendLoop env (r.fromAccountId.getD "") (r.message.getD "") l).1.filter (·.success)).length
            ((bulkSendLoop env (r.fromAccountId.getD "") (r.message.getD "") l).1.filter (fun x => !x.success)).length
            (bulkSendLoop env (r.fromAccountId.getD "") (r.message.getD "") l).1⟩
          writes := (bulkSendLoop env (r.fromAccountId.getD "") (r.message.getD "") l).2.1
          sends := (bulkSendLoop env (r.fromAccountId.getD "") (r.message.getD "") l).2.2 } := by
      simp [sendBulkHandler, hrec, hfrom, hne, hmsg, htrim, hinv, hlt]
    have hlength : (bulkSendLoop env (r.fromAccountId.getD "") (r.message.getD "") l).1.length
        = l.length := by
      have := congrArg List.length
        (bulkSendLoop_results_toNumber env (r.fromAccountId.getD "") (r.message.getD "") l)
      simpa using this
    refine ⟨by rw [hout], ?_, ?_, ?_, ?_⟩
    · rw [hout]
      exact bulkSendLoop_sends env (r.fromAccountId.getD "") (r.message.getD "") l
    · rw [hout]
      exact bulkSendLoop_results_toNumber env (r.fromAccountId.getD "") (r.message.getD "") l
    · rw [hout]
      exact hlength
    · rw [hout]
      show ((bulkSendLoop env _ _ l).1.filter (·.success)).length
          + ((bulkSendLoop env _ _ l).1.filter (fun x => !x.success)).length = l.length
      rw [length_filter_add_length_filter_not (·.success)
        (bulkSendLoop env (r.fromAccountId.getD "") (r.message.getD "") l).1]
      exact hlength
  · intro env r l hrec hfrom hne hvalid hlen hcontent
    have hinv : l.filter (fun n => !validPhone n) = [] := by
      rw [List.filter_eq_nil_iff]
      intro a ha
      simp [hvalid a ha]
    have hlt : ¬(50 < l.length) := by omega
    have hout : sendBulkMediaHandler env r =
        { resp := ⟨200, .bulkResult
            ("Bulk media send completed: "
              ++ toString ((bulkMediaLoop env (r.fromAccountId.getD "") (r.message.getD "") r.file l).1.filter (·.success)).length
              ++ " successful, "
              ++ toString ((bulkMediaLoop env (r.fromAccountId.getD "") (r.message.getD "") r.file l).1.filter (fun x => !x.success)).length
              ++ " failed")
            ((bulkMediaLoop env (r.fromAccountId.getD "") (r.message.getD "") r.file l).1.filter (·.success)).length
            ((bulkMediaLoop env (r.fromAccountId.getD "") (r.message.getD "") r.file l).1.filter (fun x => !x.success)).length
            (bulkMediaLoop env (r.fromAccountId.getD "") (r.message.getD "") r.file l).1⟩
          writes := (bulkMediaLoop env (r.fromAccountId.getD "") (r.message.getD "") r.file l).2.1
          sends := (bulkMediaLoop env (r.fromAccountId.getD "") (r.message.getD "") r.file l).2.2
          unlinks := match r.file with | some f => [f.path] | none => [] } := by
      simp [sendBulkMediaHandler, hrec, hfrom, hne, hinv, hlt, hcontent]
    have hlength : (bulkMediaLoop env (r.fromAccountId.getD "") (r.message.getD "") r.file l).1.length
        = l.length := by
      have := congrArg List.length
        (bulkMediaLoop_results_toNumber env (r.fromAccountId.getD "") (r.message.getD "") r.file l)
      simpa using this
    refine ⟨by rw [hout], ?_, ?_, ?_, ?_⟩
    · rw [hout]
      exact bulkMediaLoop_sends env (r.fromAccountId.getD "") (r.message.getD "") r.file l
    · rw [hout]
      exact bulkMediaLoop_results_toNumber env (r.fromAccountId.getD "") (r.message.getD "") r.file l
    · rw [hout]
      exact hlength
    · rw [hout]
      show ((bulkMediaLoop env _ _ r.file l).1.filter (·.success)).length
          + ((bulkMediaLoop env _ _ r.file l).1.filter (fun x => !x.success)).length = l.length
      rw [length_filter_add_length_filter_not (·.success)
        (bulkMediaLoop env (r.fromAccountId.getD "") (r.message.getD "") r.file l).1]
      exact hlength

/-- Witness for C1: both bulk endpoints instantiated on a two-recipient
list in which the second send fails; the response is still 200 with one
result per recipient. -/
theorem sendBulk_sequential_results_per_recipient_witness :
    (sendBulkHandler testEnv
      ⟨some "1", some ["1234567890", "9999999999"], some "hi", none⟩).resp.status = 200 ∧
    (sendBulkMediaHandler testEnv
      ⟨some "1", some (.list ["1234567890", "9999999999"]), some "hi", none, none⟩).resp.status = 200 :=
  ⟨(sendBulk_sequential_results_per_recipient.1 testEnv
      ⟨some "1", some ["1234567890", "9999999999"], some "hi", none⟩
      ["1234567890", "9999999999"] rfl (by decide) (by decide) (by decide)
      (by decide) (by decide) (by decide)).1,
   (sendBulk_sequential_results_per_recipient.2 testEnv
      ⟨some "1", some (.list ["1234567890", "9999999999"]), some "hi", none, none⟩
      ["1234567890", "9999999999"] rfl (by decide) (by decide)
      (by decide) (by decide) (by decide)).1⟩

/-- C2: for every POST /send-bulk request whose recipient list contains a
number failing the 10-to-15-digit check, or has more than 100 entries, or
whose message is missing or blank, the response status is 400 and no send
is attempted; and whenever the response body is the invalid-numbers error,
it lists exactly the recipients failing the check. -/
theorem sendBulk_validation_rejects_before_sending :
    (∀ (env : Env) (r : SendBulkReq) (l : List String),
      r.recipients = some l →
      ((∃ n ∈ l, validPhone n = false) ∨ 100 < l.length ∨
        truthy r.message = false ∨ (trimOpt r.message).isEmpty = true) →
      (sendBulkHandler env r).resp.status = 400 ∧ (sendBulkHandler env r).sends = [])
    ∧
    (∀ (env : Env) (r : SendBulkReq) (l : List String) (m : String) (nums : List String),
      r.recipients = some l →
      (sendBulkHandler env r).resp.body = .errWithNumbers m nums →
      nums = l.filter (fun n => !validPhone n) ∧ m = "Invalid phone numbers") := by
  constructor
  · intro env r l hrec hbad
    simp only [sendBulkHandler, hrec]
    split_ifs with h1 h2 h3 h4
    · exact ⟨rfl, rfl⟩
    · exact ⟨rfl, rfl⟩
    · exact ⟨rfl, rfl⟩
    · exact ⟨rfl, rfl⟩
    · exfalso
      rcases hbad with ⟨n, hn, hb⟩ | h100 | hm | ht
      · apply h3
        have hmem : n ∈ l.filter (fun n => !validPhone n) :=
          List.mem_filter.mpr ⟨hn, by simp [hb]⟩
        simp [List.isEmpty_eq_false.mpr (List.ne_nil_of_mem hmem)]
      · exact h4 h100
      · exact h2 (by simp [hm])
      · exact h2 (by simp [ht])
  · intro env r l m nums hrec hbody
    simp only [sendBulkHandler, hrec] at hbody
    split_ifs at hbody <;>
      first
      | (simp only [Body.errWithNumbers.injEq] at hbody
         exact ⟨hbody.2.symm, hbody.1.symm⟩)
      | simp at hbody

/-- Witness for C2: a bulk request with the single invalid recipient "123"
is answered 400 with no send attempts, and the invalid-numbers body lists
exactly that recipient. -/
theorem sendBulk_validation_rejects_before_sending_witness :
    ((sendBulkHandler testEnv ⟨some "1", some ["123"], some "hi", none⟩).resp.status = 400 ∧
      (sendBulkHandler testEnv ⟨some "1", some ["123"], some "hi", none⟩).sends = []) ∧
    (["123"] = List.filter (fun n => !validPhone n) ["123"] ∧
      "Invalid phone numbers" = "Invalid phone numbers") :=
  ⟨sendBulk_validation_rejects_before_sending.1 testEnv
      ⟨some "1", some ["123"], some "hi", none⟩ ["123"] rfl
      (Or.inl ⟨"123", by decide, by decide⟩),
   sendBulk_validation_rejects_before_sending.2 testEnv
      ⟨some "1", some ["123"], some "hi", none⟩ ["123"]
      "Invalid phone numbers" ["123"] rfl (by decide)⟩

/-- C5: for every POST /send request, a missing fromAccountId, toNumber or
message yields a 400; a fromAccountId with no connected account row yields
400 "Account not found or not connected"; sendTextMessage is invoked only
when both checks pass; and on a successful send the response reports
success and one activity_logs row with action "message_sent" is
inserted. -/
theorem send_validates_then_sends_and_logs :
    (∀ (env : Env) (r : SendReq),
      (truthy r.fromAccountId = false ∨ truthy r.toNumber = false ∨ truthy r.message = false) →
      (sendHandler env r).resp = ⟨400, .err "fromAccountId, toNumber, and message are required"⟩ ∧
      (sendHandler env r).sends = [])
    ∧
    (∀ (env : Env) (r : SendReq),
      truthy r.fromAccountId = true → truthy r.toNumber = true → truthy r.message = true →
      accountConnected env.accounts (r.fromAccountId.getD "") = false →
      (sendHandler env r).resp = ⟨400, .err "Account not found or not connected"⟩ ∧
      (sendHandler env r).sends = [])
    ∧
    (∀ (env : Env) (r : SendReq),
      (sendHandler env r).sends ≠ [] →
      truthy r.fromAccountId = true ∧ truthy r.toNumber = true ∧ truthy r.message = true ∧
      accountConnected env.accounts (r.fromAccountId.getD "") = true)
    ∧
    (∀ (env : Env) (r : SendReq) (mid : Option String),
      truthy r.fromAccountId = true → truthy r.toNumber = true → truthy r.message = true →
      accountConnected env.accounts (r.fromAccountId.getD "") = true →
      env.sendText (r.fromAccountId.getD "") (r.toNumber.getD "") (r.message.getD "") = .ok mid →
      (sendHandler env r).resp = ⟨200, .sendSuccess "Message sent successfully" mid⟩ ∧
      (sendHandler env r).writes
        = [.insertActivityLog (r.fromAccountId.getD "") "message_sent"
            ("Message sent to " ++ (r.toNumber.getD ""))]) := by
  refine ⟨?_, ?_, ?_, ?_⟩
  · intro env r h
    rcases h with h | h | h <;> simp [sendHandler, h]
  · intro env r h1 h2 h3 hconn
    simp [sendHandler, h1, h2, h3, hconn]
  · intro env r hs
    by_cases h1 : truthy r.fromAccountId = true
    · by_cases h2 : truthy r.toNumber = true
      · by_cases h3 : truthy r.message = true
        · by_cases hc : accountConnected env.accounts (r.fromAccountId.getD "") = true
          · exact ⟨h1, h2, h3, hc⟩
          · exfalso
            apply hs
            simp [sendHandler, h1, h2, h3, Bool.eq_false_iff.mpr hc]
        · exfalso
          apply hs
          simp [sendHandler, Bool.eq_false_iff.mpr h3]
      · exfalso
        apply hs
        simp [sendHandler, Bool.eq_false_iff.mpr h2]
    · exfalso
      apply hs
      simp [sendHandler, Bool.eq_false_iff.mpr h1]
  · intro env r mid h1 h2 h3 hconn hok
    simp [sendHandler, h1, h2, h3, hconn, hok]

/-- Witness for C5: a missing message is answered 400; an unconnected
account is answered 400; a valid request to the connected account "1"
succeeds and logs the activity. -/
theorem send_validates_then_sends_and_logs_witness :
    ((sendHandler testEnv ⟨some "1", some "1234567890", none, none⟩).resp
        = ⟨400, .err "fromAccountId, toNumber, and message are required"⟩ ∧
      (sendHandler testEnv ⟨some "1", some "1234567890", none, none⟩).sends = []) ∧
    ((sendHandler testEnv ⟨some "2", some "1234567890", some "hi", none⟩).resp
        = ⟨400, .err "Account not found or not connected"⟩ ∧
      (sendHandler testEnv ⟨some "2", some "1234567890", some "hi", none⟩).sends = []) ∧
    (truthy (some "1") = true ∧ truthy (some "1234567890") = true ∧ truthy (some "hi") = true ∧
      accountConnected testEnv.accounts "1" = true) ∧
    ((sendHandler testEnv ⟨some "1", some "1234567890", some "hi", none⟩).resp
        = ⟨200, .sendSuccess "Message sent successfully" (some "mid1")⟩ ∧
      (sendHandler testEnv ⟨some "1", some "1234567890", some "hi", none⟩).writes
        = [.insertActivityLog "1" "message_sent" "Message sent to 1234567890"]) :=
  ⟨send_validates_then_sends_and_logs.1 testEnv
      ⟨some "1", some "1234567890", none, none⟩ (Or.inr (Or.inr (by decide))),
   send_validates_then_sends_and_logs.2.1 testEnv
      ⟨some "2", some "1234567890", some "hi", none⟩
      (by decide) (by decide) (by decide) (by decide),
   send_validates_then_sends_and_logs.2.2.1 testEnv
      ⟨some "1", some "1234567890", some "hi", none⟩ (by decide),
   send_validates_then_sends_and_logs.2.2.2 testEnv
      ⟨some "1", some "1234567890", some "hi", none⟩ (some "mid1")
      (by decide) (by decide) (by decide) (by decide) rfl⟩

/-- C7: POST /accounts answers 400 with no insert when name is missing;
400 "Phone number already exists" with no insert when the supplied phone
is already taken; and otherwise inserts the account with status
"disconnected" plus an activity_logs row with action "created", answering
201 with the new account (status "disconnected", qr_code null). -/
theorem accounts_create_validates_and_inserts :
    (∀ (env : Env) (r : AccountCreateReq),
      truthy r.name = false →
      (createAccountHandler env r).resp = ⟨400, .err "Name is required"⟩ ∧
      (createAccountHandler env r).writes = [])
    ∧
    (∀ (env : Env) (r : AccountCreateReq),
      truthy r.name = true → truthy r.phone = true →
      phoneTaken env.accounts (r.phone.getD "") = true →
      (createAccountHandler env r).resp = ⟨400, .err "Phone number already exists"⟩ ∧
      (createAccountHandler env r).writes = [])
    ∧
    (∀ (env : Env) (r : AccountCreateReq),
      truthy r.name = true →
      (truthy r.phone = false ∨ phoneTaken env.accounts (r.phone.getD "") = false) →
      (createAccountHandler env r).resp
        = ⟨201, .accountCreated env.nextId (r.name.getD "") r.phone "disconnected" none
            "Account created successfully"⟩ ∧
      (createAccountHandler env r).writes
        = [.insertAccount (r.name.getD "") r.phone "disconnected",
           .insertActivityLog env.nextId "created" "Account created"]) := by
  refine ⟨?_, ?_, ?_⟩
  · intro env r h
    simp [createAccountHandler, h]
  · intro env r hn hp htaken
    simp [createAccountHandler, hn, hp, htaken]
  · intro env r hn h
    rcases h with h | h <;> simp [createAccountHandler, hn, h]

/-- Witness for C7: missing name gives 400 without writes; a duplicate of
the existing phone gives 400 without writes; a fresh account is inserted
disconnected with its creation logged. -/
theorem accounts_create_validates_and_inserts_witness :
    ((createAccountHandler testEnv ⟨none, some "777"⟩).resp = ⟨400, .err "Name is required"⟩ ∧
      (createAccountHandler testEnv ⟨none, some "777"⟩).writes = []) ∧
    ((createAccountHandler testEnv ⟨some "B", some "628123456789"⟩).resp
        = ⟨400, .err "Phone number already exists"⟩ ∧
      (createAccountHandler testEnv ⟨some "B", some "628123456789"⟩).writes = []) ∧
    ((createAccountHandler testEnv ⟨some "B", some "777"⟩).resp
        = ⟨201, .accountCreated "7" "B" (some "777") "disconnected" none
            "Account created successfully"⟩ ∧
      (createAccountHandler testEnv ⟨some "B", some "777"⟩).writes
        = [.insertAccount "B" (some "777") "disconnected",
           .insertActivityLog "7" "created" "Account created"]) :=
  ⟨accounts_create_validates_and_inserts.1 testEnv ⟨none, some "777"⟩ (by decide),
   accounts_create_validates_and_inserts.2.1 testEnv ⟨some "B", some "628123456789"⟩
      (by decide) (by decide) (by decide),
   accounts_create_validates_and_inserts.2.2 testEnv ⟨some "B", some "777"⟩
      (by decide) (Or.inr (by decide))⟩

/-- C8: POST /accounts/:id/disconnect never checks that the account exists:
its outcome does not depend on the accounts table at all, and for any id
it answers "Account disconnected successfully" whenever the service call
does not throw; while /:id/connect, /:id/fresh-connect and
/:id/force-reconnect answer 404 "Account not found" with no service call
and no database write when the id matches no account. -/
theorem accounts_disconnect_skips_existence_check :
    (∀ (env : Env) (id : String),
      env.svcDisconnect id = .ok () →
      (disconnectHandler env id).resp = ⟨200, .message "Account disconnected successfully"⟩ ∧
      (disconnectHandler env id).writes = [] ∧
      (disconnectHandler env id).svcCalls = [.disconnect id])
    ∧
    (∀ (env : Env) (accs : List Account) (id : String),
      disconnectHandler { env with accounts := accs } id = disconnectHandler env id)
    ∧
    (∀ (env : Env) (id : String),
      accountExists env.accounts id = false →
      connectHandler env id = { resp := ⟨404, .err "Account not found"⟩ } ∧
      freshConnectHandler env id = { resp := ⟨404, .err "Account not found"⟩ } ∧
      forceReconnectHandler env id = { resp := ⟨404, .err "Account not found"⟩ }) := by
  refine ⟨?_, ?_, ?_⟩
  · intro env id h
    simp [disconnectHandler, h]
  · intro env accs id
    cases env
    rfl
  · intro env id h
    refine ⟨?_, ?_, ?_⟩ <;>
      simp [connectHandler, freshConnectHandler, forceReconnectHandler, h]

/-- Witness for C8: id "99" matches no account in the test environment, yet
disconnect answers success; connect, fresh-connect and force-reconnect
all answer 404 with no service call or write. -/
theorem accounts_disconnect_skips_existence_check_witness :
    ((disconnectHandler testEnv "99").resp = ⟨200, .message "Account disconnected successfully"⟩ ∧
      (disconnectHandler testEnv "99").writes = [] ∧
      (disconnectHandler testEnv "99").svcCalls = [.disconnect "99"]) ∧
    (disconnectHandler { testEnv with accounts := [] } "99" = disconnectHandler testEnv "99") ∧
    (connectHandler testEnv "99" = { resp := ⟨404, .err "Account not found"⟩ } ∧
      freshConnectHandler testEnv "99" = { resp := ⟨404, .err "Account not found"⟩ } ∧
      forceReconnectHandler testEnv "99" = { resp := ⟨404, .err "Account not found"⟩ }) :=
  ⟨accounts_disconnect_skips_existence_check.1 testEnv "99" rfl,
   accounts_disconnect_skips_existence_check.2.1 testEnv [] "99",
   accounts_disconnect_skips_existence_check.2.2 testEnv "99" (by decide)⟩

/-- C6: POST /send-media rejects an uploaded file over 16 MB (of an accepted
MIME type, since the fileFilter runs first) with 400 "File too large.
Maximum size is 16MB.", and a file of a MIME type outside the allowed
image/video/audio/document list with 400; in both cases no message is
sent. -/
theorem sendMedia_upload_limits :
    (∀ (env : Env) (r : SendMediaReq) (f : MediaFile),
      r.file = some f →
      allowedMimes.contains f.mimetype = true →
      fileSizeLimit < f.size →
      (sendMediaHandler env r).resp = ⟨400, .err "File too large. Maximum size is 16MB."⟩ ∧
      (sendMediaHandler env r).sends = [])
    ∧
    (∀ (env : Env) (r : SendMediaReq) (f : MediaFile),
      r.file = some f →
      allowedMimes.contains f.mimetype = false →
      (sendMediaHandler env r).resp
        = ⟨400, .err "File type not supported. Please use images, videos, audio, or documents."⟩ ∧
      (sendMediaHandler env r).sends = []) := by
  constructor
  · intro env r f hfile hmime hsize
    have hmem : f.mimetype ∈ allowedMimes := by
      rw [← List.elem_iff]
      exact hmime
    simp [sendMediaHandler, multerSingle, hfile, hmem, hsize]
  · intro env r f hfile hmime
    have hmem : f.mimetype ∉ allowedMimes := by
      intro hin
      rw [← List.elem_iff] at hin
      have hc : allowedMimes.contains f.mimetype = true := hin
      rw [hc] at hmime
      cases hmime
    simp [sendMediaHandler, multerSingle, hfile, hmem]

/-- Witness for C6: a 16 MB + 1 byte PNG upload is rejected as too large, a
text/plain upload is rejected as unsupported; neither sends anything. -/
theorem sendMedia_upload_limits_witness :
    ((sendMediaHandler testEnv
        ⟨some "1", some "1234567890", some "hi", none, some ⟨"uploads/temp/a", 16777217, "image/png"⟩⟩).resp
        = ⟨400, .err "File too large. Maximum size is 16MB."⟩ ∧
      (sendMediaHandler testEnv
        ⟨some "1", some "1234567890", some "hi", none, some ⟨"uploads/temp/a", 16777217, "image/png"⟩⟩).sends = []) ∧
    ((sendMediaHandler testEnv
        ⟨some "1", some "1234567890", some "hi", none, some ⟨"uploads/temp/b", 5, "text/plain"⟩⟩).resp
        = ⟨400, .err "File type not supported. Please use images, videos, audio, or documents."⟩ ∧
      (sendMediaHandler testEnv
        ⟨some "1", some "1234567890", some "hi", none, some ⟨"uploads/temp/b", 5, "text/plain"⟩⟩).sends = []) :=
  ⟨sendMedia_upload_limits.1 testEnv
      ⟨some "1", some "1234567890", some "hi", none, some ⟨"uploads/temp/a", 16777217, "image/png"⟩⟩
      ⟨"uploads/temp/a", 16777217, "image/png"⟩ rfl (by decide) (by decide),
   sendMedia_upload_limits.2 testEnv
      ⟨some "1", some "1234567890", some "hi", none, some ⟨"uploads/temp/b", 5, "text/plain"⟩⟩
      ⟨"uploads/temp/b", 5, "text/plain"⟩ rfl (by decide)⟩

/-- Counterexample for C4 as stated: a POST /send-media request with
scheduledAt set but a missing fromAccountId is answered 400, not 501
(the validation rejections run before the scheduled-message check). -/
theorem sendMedia_scheduled_not_always_501 :
    truthy (some "2030-01-01") = true ∧
    (sendMediaHandler testEnv ⟨none, some "1234567890", some "hi", some "2030-01-01", none⟩).resp.status = 400 ∧
    (sendMediaHandler testEnv ⟨none, some "1234567890", some "hi", some "2030-01-01", none⟩).resp.status ≠ 501 := by
  decide

lemma sendMediaCore_scheduled_no_sends (env : Env) (r : SendMediaReq)
    (h : truthy r.scheduledAt = true) : (sendMediaCore env r).sends = [] := by
  simp only [sendMediaCore, h]
  split_ifs <;> rfl

/-- C4 amended: no endpoint defers a message. POST /send-media never sends
when scheduledAt is set, and answers 501 when the request also passes the
preceding validations (otherwise the earlier validation response is
returned); POST /send, /send-bulk and /send-bulk-media accept scheduledAt
but ignore it entirely. -/
theorem no_scheduling_ever :
    (∀ (env : Env) (r : SendMediaReq),
      truthy r.scheduledAt = true →
      (sendMediaHandler env r).sends = [])
    ∧
    (∀ (env : Env) (r : SendMediaReq),
      truthy r.fromAccountId = true → truthy r.toNumber = true →
      ((trimOpt r.message).isEmpty && r.file.isNone) = false →
      validPhone (r.toNumber.getD "") = true →
      accountConnected env.accounts (r.fromAccountId.getD "") = true →
      truthy r.scheduledAt = true →
      (sendMediaCore env r).resp = ⟨501, .err "Scheduled media messages not implemented yet"⟩ ∧
      (sendMediaCore env r).sends = [])
    ∧
    (∀ (env : Env) (f t m s s' : Option String),
      sendHandler env ⟨f, t, m, s⟩ = sendHandler env ⟨f, t, m, s'⟩)
    ∧
    (∀ (env : Env) (f : Option String) (rec : Option (List String)) (m s s' : Option String),
      sendBulkHandler env ⟨f, rec, m, s⟩ = sendBulkHandler env ⟨f, rec, m, s'⟩)
    ∧
    (∀ (env : Env) (f : Option String) (rec : Option RecipientsVal)
        (m s s' : Option String) (fl : Option MediaFile),
      sendBulkMediaHandler env ⟨f, rec, m, s, fl⟩ = sendBulkMediaHandler env ⟨f, rec, m, s', fl⟩) := by
  refine ⟨?_, ?_, ?_, ?_, ?_⟩
  · intro env r h
    unfold sendMediaHandler
    cases hm : multerSingle r.file with
    | rejected resp => rfl
    | passed f => exact sendMediaCore_scheduled_no_sends env { r with file := f } h
  · intro env r h1 h2 h3 h4 h5 h6
    constructor <;> simp [sendMediaCore, h1, h2, h3, h4, h5, h6]
  · intro env f t m s s'
    rfl
  · intro env f rec m s s'
    rfl
  · intro env f rec m s s' fl
    rfl

/-- Witness for C4's amended claim: a fully valid send-media request with
scheduledAt set is answered 501 with no send attempt. -/
theorem no_scheduling_ever_witness :
    (sendMediaHandler testEnv ⟨some "1", some "1234567890", some "hi", some "2030-01-01", none⟩).sends = [] ∧
    ((sendMediaCore testEnv ⟨some "1", some "1234567890", some "hi", some "2030-01-01", none⟩).resp
        = ⟨501, .err "Scheduled media messages not implemented yet"⟩ ∧
      (sendMediaCore testEnv ⟨some "1", some "1234567890", some "hi", some "2030-01-01", none⟩).sends = []) ∧
    sendHandler testEnv ⟨some "1", some "1234567890", some "hi", some "2030-01-01"⟩
      = sendHandler testEnv ⟨some "1", some "1234567890", some "hi", none⟩ :=
  ⟨no_scheduling_ever.1 testEnv
      ⟨some "1", some "1234567890", some "hi", some "2030-01-01", none⟩ (by decide),
   no_scheduling_ever.2.1 testEnv
      ⟨some "1", some "1234567890", some "hi", some "2030-01-01", none⟩
      (by decide) (by decide) (by decide) (by decide) (by decide) (by decide),
   no_scheduling_ever.2.2.1 testEnv (some "1") (some "1234567890") (some "hi")
      (some "2030-01-01") none⟩

/-- Counterexample for C3 as stated: a POST /send-media request whose file
was stored (valid PNG under 16 MB) but whose fromAccountId is missing is
answered 400 while the temp file is never unlinked — an error path that
does not delete the stored temporary file. -/
theorem sendMedia_validation_reject_leaves_tempfile :
    (sendMediaHandler testEnv
      ⟨none, some "1234567890", some "hi", none, some ⟨"uploads/temp/x", 5, "image/png"⟩⟩).resp.status = 400 ∧
    (sendMediaHandler testEnv
      ⟨none, some "1234567890", some "hi", none, some ⟨"uploads/temp/x", 5, "image/png"⟩⟩).unlinks = [] := by
  decide

/-- C3 amended: POST /send-media deletes the stored temp file before
responding on the paths that reach the send step — both on send success
and on send failure — but the early validation rejections (missing
fields, invalid phone, account not connected, the scheduled-501 branch)
respond without deleting it; POST /send-bulk-media removes the uploaded
temp file after the send loop completes and also in its catch handler
when the handler errors. -/
theorem sendMedia_cleanup_on_send_paths :
    (∀ (env : Env) (r : SendMediaReq) (f : MediaFile),
      r.file = some f →
      truthy r.fromAccountId = true → truthy r.toNumber = true →
      validPhone (r.toNumber.getD "") = true →
      accountConnected env.accounts (r.fromAccountId.getD "") = true →
      truthy r.scheduledAt = false →
      f.path ∈ (sendMediaCore env r).unlinks)
    ∧
    (∀ (env : Env) (r : SendBulkMediaReq) (l : List String) (f : MediaFile),
      r.recipients = some (.list l) →
      r.file = some f →
      truthy r.fromAccountId = true →
      l ≠ [] →
      (∀ n ∈ l, validPhone n = true) →
      l.length ≤ 50 →
      (sendBulkMediaHandler env r).unlinks = [f.path] ∧
      (sendBulkMediaHandler env r).resp.status = 200)
    ∧
    (∀ (f : MediaFile) (errMsg : String),
      (sendBulkMediaCatch (some f) errMsg).unlinks = [f.path] ∧
      (sendBulkMediaCatch (some f) errMsg).resp.status = 500) := by
  refine ⟨?_, ?_, ?_⟩
  · intro env r f hfile h1 h2 h3 h4 h5
    by_cases ht : (trimOpt r.message).isEmpty = true
    · cases hout : env.sendMedia (r.fromAccountId.getD "") (r.toNumber.getD "") none f.path <;>
        simp [sendMediaCore, hfile, h1, h2, h3, h4, h5, ht, hout]
    · rw [Bool.not_eq_true] at ht
      cases hout : env.sendMedia (r.fromAccountId.getD "") (r.toNumber.getD "")
          (some (trimOpt r.message)) f.path <;>
        simp [sendMediaCore, hfile, h1, h2, h3, h4, h5, ht, hout]
  · intro env r l f hrec hfile h1 hne hvalid hlen
    have hinv : l.filter (fun n => !validPhone n) = [] := by
      rw [List.filter_eq_nil_iff]
      intro a ha
      simp [hvalid a ha]
    have hlt : ¬(50 < l.length) := by omega
    constructor <;> simp [sendBulkMediaHandler, hrec, hfile, h1, hne, hinv, hlt]
  · intro f errMsg
    exact ⟨rfl, rfl⟩

/-- Witness for C3's amended claim: with a stored file and passing
validations, send-media unlinks the temp file on the success path and on
the send-failure path; bulk-media unlinks it after the loop and in its
catch handler. -/
theorem sendMedia_cleanup_on_send_paths_witness :
    "uploads/temp/x" ∈ (sendMediaCore testEnv
      ⟨some "1", some "1234567890", some "hi", none, some ⟨"uploads/temp/x", 5, "image/png"⟩⟩).unlinks ∧
    "uploads/temp/x" ∈ (sendMediaCore testEnv
      ⟨some "1", some "9999999999", some "hi", none, some ⟨"uploads/temp/x", 5, "image/png"⟩⟩).unlinks ∧
    ((sendBulkMediaHandler testEnv
        ⟨some "1", some (.list ["1234567890"]), some "hi", none,
          some ⟨"uploads/temp/x", 5, "image/png"⟩⟩).unlinks = ["uploads/temp/x"] ∧
      (sendBulkMediaHandler testEnv
        ⟨some "1", some (.list ["1234567890"]), some "hi", none,
          some ⟨"uploads/temp/x", 5, "image/png"⟩⟩).resp.status = 200) ∧
    ((sendBulkMediaCatch (some ⟨"uploads/temp/x", 5, "image/png"⟩) "boom").unlinks
        = ["uploads/temp/x"] ∧
      (sendBulkMediaCatch (some ⟨"uploads/temp/x", 5, "image/png"⟩) "boom").resp.status = 500) :=
  ⟨sendMedia_cleanup_on_send_paths.1 testEnv
      ⟨some "1", some "1234567890", some "hi", none, some ⟨"uploads/temp/x", 5, "image/png"⟩⟩
      ⟨"uploads/temp/x", 5, "image/png"⟩ rfl (by decide) (by decide) (by decide)
      (by decide) (by decide),
   sendMedia_cleanup_on_send_paths.1 testEnv
      ⟨some "1", some "9999999999", some "hi", none, some ⟨"uploads/temp/x", 5, "image/png"⟩⟩
      ⟨"uploads/temp/x", 5, "image/png"⟩ rfl (by decide) (by decide) (by decide)
      (by decide) (by decide),
   sendMedia_cleanup_on_send_paths.2.1 testEnv
      ⟨some "1", some (.list ["1234567890"]), some "hi", none,
        some ⟨"uploads/temp/x", 5, "image/png"⟩⟩
      ["1234567890"] ⟨"uploads/temp/x", 5, "image/png"⟩ rfl rfl (by decide)
      (by decide) (by decide) (by decide),
   sendMedia_cleanup_on_send_paths.2.2
      ⟨"uploads/temp/x", 5, "image/png"⟩ "boom"⟩

lemma allDigits_cleanPhone (s : String) : allDigits (cleanPhone s) = true := by
  simp only [allDigits, cleanPhone, List.all_eq_true]
  intro c hc
  exact (List.mem_filter.mp hc).2

lemma bulkContactsLoop_writes_digits (contacts : List ContactReq) :
    ∀ w ∈ (bulkContactsLoop contacts).2.2.2,
      ∀ p, contactWritePhone w = some p → allDigits p = true := by
  induction contacts with
  | nil => intro w hw; simp [bulkContactsLoop] at hw
  | cons c rest ih =>
      intro w hw p hp
      by_cases h : (!truthy c.name || !truthy c.phone) = true
      · simp only [bulkContactsLoop, h, if_pos] at hw
        exact ih w hw p hp
      · simp only [bulkContactsLoop, h, if_neg, List.mem_cons, Bool.false_eq_true,
          not_false_eq_true] at hw
        rcases hw with hw | hw
        · subst hw
          simp only [contactWritePhone, Option.some.injEq] at hp
          rw [← hp]
          exact allDigits_cleanPhone _
        · exact ih w hw p hp

/-- Counterexample for C9 as stated: two POST /contacts/bulk requests whose
items carry different phones produce identical responses — the bulk
response reports only counts and errors and echoes no phone at all. -/
theorem contacts_bulk_response_echoes_no_phone :
    (bulkContactsHandler (some [⟨some "A", some "+1 234-567-8901", none⟩])).resp
      = (bulkContactsHandler (some [⟨some "A", some "999", none⟩])).resp ∧
    cleanPhone "+1 234-567-8901" ≠ cleanPhone "999" := by
  decide

/-- C9 amended: every contact row written through POST /contacts, each item
of POST /contacts/bulk, and PUT /contacts/:id carries a phone stripped to
decimal digits only, and the POST /contacts response echoes the cleaned
phone; the POST /contacts/bulk response reports only counts and error
messages, echoing no phone. -/
theorem contacts_phone_always_digits :
    (∀ (env : Env) (r : ContactReq),
      ∀ w ∈ (createContactHandler env r).writes,
        ∀ p, contactWritePhone w = some p → allDigits p = true)
    ∧
    (∀ (r : Option (List ContactReq)),
      ∀ w ∈ (bulkContactsHandler r).writes,
        ∀ p, contactWritePhone w = some p → allDigits p = true)
    ∧
    (∀ (env : Env) (id : String) (r : ContactUpdateReq),
      ∀ w ∈ (updateContactHandler env id r).writes,
        ∀ p, contactWritePhone w = some p → allDigits p = true)
    ∧
    (∀ (env : Env) (r : ContactReq),
      truthy r.name = true → truthy r.phone = true →
      (createContactHandler env r).resp
        = ⟨201, .contactCreated env.nextId (r.name.getD "") (cleanPhone (r.phone.getD ""))
            r.groupName "Contact added successfully"⟩) := by
  refine ⟨?_, ?_, ?_, ?_⟩
  · intro env r w hw p hp
    by_cases h : (!truthy r.name || !truthy r.phone) = true
    · simp [createContactHandler, h] at hw
    · simp only [createContactHandler, h, if_neg, List.mem_singleton,
        Bool.false_eq_true, not_false_eq_true] at hw
      subst hw
      simp only [contactWritePhone, Option.some.injEq] at hp
      rw [← hp]
      exact allDigits_cleanPhone _
  · intro r w hw p hp
    match r with
    | none => simp [bulkContactsHandler] at hw
    | some [] => simp [bulkContactsHandler] at hw
    | some (c :: rest) =>
        simp only [bulkContactsHandler] at hw
        exact bulkContactsLoop_writes_digits (c :: rest) w hw p hp
  · intro env id r w hw p hp
    by_cases h : (!truthy r.name || !truthy r.phone) = true
    · simp [updateContactHandler, h] at hw
    · simp only [updateContactHandler, h, if_neg, Bool.false_eq_true,
        not_false_eq_true] at hw
      split_ifs at hw <;>
        · simp only [List.mem_singleton] at hw
          subst hw
          simp only [contactWritePhone, Option.some.injEq] at hp
          rw [← hp]
          exact allDigits_cleanPhone _
  · intro env r h1 h2
    simp [createContactHandler, h1, h2]

/-- Witness for C9's amended claim: the phone "+62 812-1" is stored and
echoed as "628121" by POST /contacts. -/
theorem contacts_phone_always_digits_witness :
    allDigits "628121" = true ∧
    (createContactHandler testEnv ⟨some "A", some "+62 812-1", none⟩).resp
      = ⟨201, .contactCreated "7" "A" "628121" none "Contact added successfully"⟩ :=
  ⟨contacts_phone_always_digits.1 testEnv ⟨some "A", some "+62 812-1", none⟩
      (.insertContact "A" "628121" none) (by decide) "628121" (by decide),
   contacts_phone_always_digits.2.2.2 testEnv ⟨some "A", some "+62 812-1", none⟩
      (by decide) (by decide)⟩

lemma sendMediaCore_writes_no_messages (env : Env) (r : SendMediaReq) :
    (sendMediaCore env r).writes.all (fun w => !isMessagesWrite w) = true := by
  rcases r with ⟨a, b, m, s, fl⟩
  cases fl with
  | none =>
      unfold sendMediaCore
      split_ifs <;> try rfl
      all_goals
        cases h : env.sendText (a.getD "") (b.getD "") (trimOpt m) <;>
          simp [h, isMessagesWrite]
  | some f =>
      unfold sendMediaCore
      split_ifs <;> try rfl
      · cases h : env.sendMedia (a.getD "") (b.getD "") (some (trimOpt m)) f.path <;>
          simp [h, isMessagesWrite]
      · cases h : env.sendMedia (a.getD "") (b.getD "") none f.path <;>
          simp [h, isMessagesWrite]

lemma bulkContactsLoop_writes_no_messages (contacts : List ContactReq) :
    (bulkContactsLoop contacts).2.2.2.all (fun w => !isMessagesWrite w) = true := by
  induction contacts with
  | nil => rfl
  | cons c rest ih =>
      by_cases h : (!truthy c.name || !truthy c.phone) = true
      · simpa [bulkContactsLoop, h] using ih
      · simp only [bulkContactsLoop, h, if_neg, Bool.false_eq_true, not_false_eq_true,
          List.all_cons, Bool.and_eq_true]
        exact ⟨rfl, ih⟩

/-- C10: a POST /send never writes to the messages table — on success its
only database write is the single activity_logs row — while a valid
POST /send-bulk writes exactly one messages row with status "sent" per
successfully delivered recipient; no other modelled handler writes to the
messages table, so it is changed only by the bulk endpoints. -/
theorem messages_table_written_only_by_bulk :
    (∀ (env : Env) (r : SendReq),
      (sendHandler env r).writes.all (fun w => !isMessagesWrite w) = true)
    ∧
    (∀ (env : Env) (r : SendReq),
      (sendHandler env r).resp.status = 200 →
      (sendHandler env r).writes
        = [.insertActivityLog (r.fromAccountId.getD "") "message_sent"
            ("Message sent to " ++ (r.toNumber.getD ""))])
    ∧
    (∀ (env : Env) (r : SendBulkReq) (l : List String),
      r.recipients = some l →
      truthy r.fromAccountId = true →
      l ≠ [] →
      truthy r.message = true →
      (trimOpt r.message).isEmpty = false →
      (∀ n ∈ l, validPhone n = true) →
      l.length ≤ 100 →
      (sendBulkHandler env r).writes
        = ((bodyResults (sendBulkHandler env r).resp.body).filter (·.success)).map
            (fun res => .insertMessage (r.fromAccountId.getD "") res.toNumber
              (r.message.getD "") none "sent" "text"))
    ∧
    ((∀ (env : Env) (r : SendMediaReq),
        (sendMediaHandler env r).writes.all (fun w => !isMessagesWrite w) = true) ∧
      (∀ (env : Env) (r : ContactReq),
        (createContactHandler env r).writes.all (fun w => !isMessagesWrite w) = true) ∧
      (∀ (r : Option (List ContactReq)),
        (bulkContactsHandler r).writes.all (fun w => !isMessagesWrite w) = true) ∧
      (∀ (env : Env) (id : String) (r : ContactUpdateReq),
        (updateContactHandler env id r).writes.all (fun w => !isMessagesWrite w) = true) ∧
      (∀ (env : Env) (r : AccountCreateReq),
        (createAccountHandler env r).writes.all (fun w => !isMessagesWrite w) = true) ∧
      (∀ (env : Env) (id : String),
        (connectHandler env id).writes.all (fun w => !isMessagesWrite w) = true ∧
        (freshConnectHandler env id).writes.all (fun w => !isMessagesWrite w) = true ∧
        (forceReconnectHandler env id).writes.all (fun w => !isMessagesWrite w) = true ∧
        (disconnectHandler env id).writes.all (fun w => !isMessagesWrite w) = true)) := by
  refine ⟨?_, ?_, ?_, ?_, ?_, ?_, ?_, ?_, ?_⟩
  · intro env r
    by_cases h1 : (!truthy r.fromAccountId || !truthy r.toNumber || !truthy r.message) = true
    · simp [sendHandler, h1]
    · by_cases h2 : accountConnected env.accounts (r.fromAccountId.getD "") = true
      · cases hs : env.sendText (r.fromAccountId.getD "") (r.toNumber.getD "") (r.message.getD "") <;>
          simp [sendHandler, h1, h2, hs, isMessagesWrite]
      · simp [sendHandler, h1, Bool.eq_false_iff.mpr h2]
  · intro env r h200
    by_cases h1 : (!truthy r.fromAccountId || !truthy r.toNumber || !truthy r.message) = true
    · simp [sendHandler, h1] at h200
    · by_cases h2 : accountConnected env.accounts (r.fromAccountId.getD "") = true
      · cases hs : env.sendText (r.fromAccountId.getD "") (r.toNumber.getD "") (r.message.getD "") with
        | ok mid => simp [sendHandler, h1, h2, hs]
        | error e => simp [sendHandler, h1, h2, hs] at h200
      · simp [sendHandler, h1, Bool.eq_false_iff.mpr h2] at h200
  · intro env r l hrec hfrom hne hmsg htrim hvalid hlen
    have hinv : l.filter (fun n => !validPhone n) = [] := by
      rw [List.filter_eq_nil_iff]
      intro a ha
      simp [hvalid a ha]
    have hlt : ¬(100 < l.length) := by omega
    have hw : (sendBulkHandler env r).writes
        = (bulkSendLoop env (r.fromAccountId.getD "") (r.message.getD "") l).2.1 := by
      simp [sendBulkHandler, hrec, hfrom, hne, hmsg, htrim, hinv, hlt]
    have hb : bodyResults (sendBulkHandler env r).resp.body
        = (bulkSendLoop env (r.fromAccountId.getD "") (r.message.getD "") l).1 := by
      simp [sendBulkHandler, hrec, hfrom, hne, hmsg, htrim, hinv, hlt, bodyResults]
    rw [hw, hb]
    exact bulkSendLoop_writes env (r.fromAccountId.getD "") (r.message.getD "") l
  · intro env r
    unfold sendMediaHandler
    cases multerSingle r.file with
    | rejected resp => rfl
    | passed f => exact sendMediaCore_writes_no_messages env { r with file := f }
  · intro env r
    unfold createContactHandler
    split_ifs <;> rfl
  · intro r
    match r with
    | none => rfl
    | some [] => rfl
    | some (c :: rest) => exact bulkContactsLoop_writes_no_messages (c :: rest)
  · intro env id r
    unfold updateContactHandler
    split_ifs <;> rfl
  · intro env r
    unfold createAccountHandler
    split_ifs <;> rfl
  · intro env id
    refine ⟨?_, ?_, ?_, ?_⟩ <;>
      first
      | (unfold connectHandler
         split_ifs <;> first | rfl | (cases env.svcConnect id <;> rfl))
      | (unfold freshConnectHandler
         split_ifs <;> first | rfl | (cases env.svcDisconnect id <;> rfl))
      | (unfold forceReconnectHandler
         split_ifs <;> first | rfl | (cases env.svcForceReconnect id <;> rfl))
      | (unfold disconnectHandler
         cases env.svcDisconnect id <;> rfl)

/-- Witness for C10: the successful single send writes only the activity
log; the two-recipient bulk send (one delivery failing) writes exactly the
one messages row of the successful recipient. -/
theorem messages_table_written_only_by_bulk_witness :
    (sendHandler testEnv ⟨some "1", some "1234567890", some "hi", none⟩).writes
      = [.insertActivityLog "1" "message_sent" "Message sent to 1234567890"] ∧
    (sendBulkHandler testEnv
        ⟨some "1", some ["1234567890", "9999999999"], some "hi", none⟩).writes
      = ((bodyResults (sendBulkHandler testEnv
            ⟨some "1", some ["1234567890", "9999999999"], some "hi", none⟩).resp.body).filter
          (·.success)).map
          (fun res => .insertMessage "1" res.toNumber "hi" none "sent" "text") :=
  ⟨messages_table_written_only_by_bulk.2.1 testEnv
      ⟨some "1", some "1234567890", some "hi", none⟩ (by decide),
   messages_table_written_only_by_bulk.2.2.1 testEnv
      ⟨some "1", some ["1234567890", "9999999999"], some "hi", none⟩
      ["1234567890", "9999999999"] rfl (by decide) (by decide) (by decide)
      (by decide) (by decide) (by decide)⟩

end Wazper
